import Mathlib

/-!
Shallow embedding of the VAWT control firmware
(`src/firmware/platformio`): the turbine state machine, the safety
monitor, the turbulence-adaptive MPPT controller, the soft-stall PI
regulator and the 1 Hz scheduler tick of `main.cpp`.  Machine floats are
modelled as exact rationals (reals where a square root occurs); the
sensors and the clock are inputs of the tick function.
-/

/-- The `TurbineState` enumeration of `TurbineStateMachine.h`. -/
inductive TurbineState
  | STATE_IDLE
  | STATE_STANDBY
  | STATE_STARTUP
  | STATE_MPPT
  | STATE_POWER_REGULATION
  | STATE_STALL
  | STATE_FAULT
  deriving DecidableEq

/-- Configuration constants of `main.cpp`. -/
def RATED_POWER : ℚ := 500

/-- Rated rotor speed (RPM), `main.cpp`. -/
def RATED_RPM : ℚ := 180

/-- Overspeed threshold (RPM), `main.cpp`. -/
def OVERSPEED_RPM : ℚ := 250

/-- Overvoltage threshold handed to the `SafetyMonitor` constructor in
`main.cpp` (`SafetyMonitor safety(OVERSPEED_RPM, 60.0)`). -/
def OVERVOLTAGE_V : ℚ := 60

/-- The mutable state of `SafetyMonitor` (`SafetyMonitor.h`): three
thresholds, three flags and the last-check timestamp. -/
structure SafetyMonitor where
  overspeedThreshold : ℚ
  overvoltageThreshold : ℚ
  overcurrentThreshold : ℚ
  overspeedFlag : Bool
  overvoltageFlag : Bool
  overcurrentFlag : Bool
  lastCheckTime : ℕ
  deriving DecidableEq

/-- The constructor `SafetyMonitor::SafetyMonitor(float overspeedRPM,
float overvoltage)`: it takes only two thresholds and fixes the
overcurrent threshold at 30.0 A, with all flags cleared. -/
def SafetyMonitor.construct (overspeedRPM overvoltage : ℚ) : SafetyMonitor :=
  { overspeedThreshold := overspeedRPM
    overvoltageThreshold := overvoltage
    overcurrentThreshold := 30
    overspeedFlag := false
    overvoltageFlag := false
    overcurrentFlag := false
    lastCheckTime := 0 }

/-- `SafetyMonitor::check(rpm, voltage, current)`: records the time,
assigns each flag from this call's comparison (strict `>` against the
stored threshold) and returns `!(overspeed || overvoltage ||
overcurrent)` together with the updated monitor.  `nowMs` stands for
`millis()`. -/
def SafetyMonitor.check (m : SafetyMonitor) (nowMs : ℕ) (rpm voltage current : ℚ) :
    Bool × SafetyMonitor :=
  let m2 : SafetyMonitor :=
    { m with
      lastCheckTime := nowMs
      overspeedFlag := decide (rpm > m.overspeedThreshold)
      overvoltageFlag := decide (voltage > m.overvoltageThreshold)
      overcurrentFlag := decide (current > m.overcurrentThreshold) }
  (!(m2.overspeedFlag || m2.overvoltageFlag || m2.overcurrentFlag), m2)

/-- `SafetyMonitor::reset()`: clears the three flags and nothing else. -/
def SafetyMonitor.reset (m : SafetyMonitor) : SafetyMonitor :=
  { m with
    overspeedFlag := false
    overvoltageFlag := false
    overcurrentFlag := false }

/-- `calculateRPM()` of `main.cpp`: `0` when the captured pulse period is
`0`, otherwise `(1000000.0 / period) * 60.0`.  The period is in
microseconds.  The function reads nothing but `pulsePeriod`. -/
def calculateRPM (pulsePeriod : ℕ) : ℚ :=
  if pulsePeriod = 0 then 0 else 1000000 / (pulsePeriod : ℚ) * 60

/-- Follows the spec's words, for comparison with `calculateRPM`: the
spec's `read_rotor_rpm` returns `60·10⁶ / period_µs`, and `0` when the
period is `0` or the last pulse is stale by more than 2 s (2 000 000 µs).
`ageUs` is the elapsed time since the last pulse. -/
def specRotorRPM (pulsePeriod ageUs : ℕ) : ℚ :=
  if pulsePeriod = 0 ∨ ageUs > 2000000 then 0 else 60000000 / (pulsePeriod : ℚ)

/-- `calculateSoftStall(power, rpm)` of `main.cpp` with the `static`
integrator made explicit: returns the commanded duty together with the
new integrator value.  `error = 500 - power`, `integrator += error *
0.001`, `duty = 0.5 + 0.01 * error + integrator`, clamped by
`constrain(duty, 0.1, 0.9)`.  The `rpm` argument is unused by the code. -/
def calculateSoftStall (power rpm integrator : ℚ) : ℚ × ℚ :=
  let error := RATED_POWER - power
  let integrator2 := integrator + error * 0.001
  let duty := 0.5 + 0.01 * error + integrator2
  (if duty < 0.1 then 0.1 else if duty > 0.9 then 0.9 else duty, integrator2)

/-- `WIND_BUFFER_SIZE` of `MPPTController.h` (100 samples). -/
def WIND_BUFFER_SIZE : ℕ := 100

/-- `BASE_STEP_SIZE` of `MPPTController.h` (2 %). -/
def BASE_STEP_SIZE : ℚ := 0.02

/-- `MIN_STEP_SIZE` of `MPPTController.cpp` (0.5 %). -/
def MIN_STEP_SIZE : ℚ := 0.005

/-- `k_turb` of `MPPTController.cpp`. -/
def K_TURB : ℚ := 0.5

/-- The state of `MPPTController` (`MPPTController.h`).  `dutyCycle`
lives in `ℝ` because the adaptive step goes through `sqrt`; the wind
buffer, where all statistics are exact rational arithmetic, stays in
`ℚ`.  `stepSizeMember` is the member `stepSize`, which `update` shadows
with a local variable and therefore never changes after construction. -/
structure MPPTController where
  lambdaOpt : ℚ
  dutyCycle : ℝ
  lastPower : ℚ
  stepSizeMember : ℚ
  direction : ℤ
  windSpeedBuffer : Fin 100 → ℚ
  bufferIndex : Fin 100
  sampleCount : ℕ

/-- The constructor `MPPTController::MPPTController(float lambdaOpt)`:
duty 0.3, last power 0, step 0.02, direction +1, zeroed buffer. -/
noncomputable def MPPTController.construct (lambdaOpt : ℚ) : MPPTController :=
  { lambdaOpt := lambdaOpt
    dutyCycle := 0.3
    lastPower := 0
    stepSizeMember := BASE_STEP_SIZE
    direction := 1
    windSpeedBuffer := fun _ => 0
    bufferIndex := 0
    sampleCount := 0 }

/-- The mean loop of `MPPTController::calculateAdaptiveStep`: sum the
100 buffer entries, divide by `WIND_BUFFER_SIZE`. -/
def MPPTController.windMean (m : MPPTController) : ℚ :=
  (∑ i : Fin 100, m.windSpeedBuffer i) / 100

/-- The variance loop of `MPPTController::calculateAdaptiveStep`: the
accumulated `diff * diff` over the buffer (before the division by
`WIND_BUFFER_SIZE` that happens inside the `sqrt` call). -/
def MPPTController.windVarianceSum (m : MPPTController) : ℚ :=
  ∑ i : Fin 100,
    (m.windSpeedBuffer i - m.windMean) * (m.windSpeedBuffer i - m.windMean)

/-- `MPPTController::calculateAdaptiveStep(windSpeed)`: base step during
warm-up (`sampleCount < WIND_BUFFER_SIZE`), otherwise
`max(BASE_STEP / (1 + k_turb * σ), MIN_STEP)` with
`σ = sqrt(variance / WIND_BUFFER_SIZE)`.  The `windSpeed` argument is
unused by the code. -/
noncomputable def MPPTController.calculateAdaptiveStep
    (m : MPPTController) (windSpeed : ℚ) : ℝ :=
  if m.sampleCount < WIND_BUFFER_SIZE then (BASE_STEP_SIZE : ℝ)
  else
    let sigma : ℝ := Real.sqrt ((m.windVarianceSum : ℝ) / (WIND_BUFFER_SIZE : ℝ))
    max ((BASE_STEP_SIZE : ℝ) / (1 + (K_TURB : ℝ) * sigma)) (MIN_STEP_SIZE : ℝ)

/-- `MPPTController::update(power, windSpeed)`: store the wind sample at
`bufferIndex`, advance the index mod 100, saturate `sampleCount` at 100,
compute the adaptive step on the updated buffer, hill-climb (keep the
direction when `power > lastPower`, otherwise flip it), clamp the duty
with `constrain(duty, 0.1, 0.9)`, store the power and return the new
duty together with the updated controller. -/
noncomputable def MPPTController.update
    (m : MPPTController) (power windSpeed : ℚ) : ℝ × MPPTController :=
  let buf2 : Fin 100 → ℚ :=
    fun j => if j = m.bufferIndex then windSpeed else m.windSpeedBuffer j
  let m2 : MPPTController :=
    { m with
      windSpeedBuffer := buf2
      bufferIndex := m.bufferIndex + 1
      sampleCount :=
        if m.sampleCount < WIND_BUFFER_SIZE then m.sampleCount + 1 else m.sampleCount }
  let stepSize : ℝ := m2.calculateAdaptiveStep windSpeed
  let direction2 : ℤ := if power > m.lastPower then m.direction else -m.direction
  let duty : ℝ := m.dutyCycle + (direction2 : ℝ) * stepSize
  let dutyClamped : ℝ := if duty < 0.1 then 0.1 else if duty > 0.9 then 0.9 else duty
  (dutyClamped,
   { m2 with
     dutyCycle := dutyClamped
     direction := direction2
     lastPower := power })

/-- `MPPTController::reset()`: duty 0.3, last power 0, direction +1,
counters 0, zeroed buffer.  (Defined in `MPPTController.cpp`; `main.cpp`
never calls it.) -/
noncomputable def MPPTController.reset (m : MPPTController) : MPPTController :=
  { m with
    dutyCycle := 0.3
    lastPower := 0
    direction := 1
    sampleCount := 0
    bufferIndex := 0
    windSpeedBuffer := fun _ => 0 }

/-- The controller-visible state threaded through one pass of `loop()`:
the state machine's regime, the safety monitor, the MPPT controller, the
`static` integrator of `calculateSoftStall`, and the two actuator
outputs: `pwm` is the last value written by `ledcWrite(0, ·)` and
`brakeRelay` the level of `BRAKE_RELAY_PIN` (`true` = HIGH = engaged). -/
structure SystemState where
  regime : TurbineState
  safety : SafetyMonitor
  mppt : MPPTController
  integrator : ℚ
  pwm : ℝ
  brakeRelay : Bool

/-- `engageBrake()` of `main.cpp`: relay HIGH, `ledcWrite(0, 0)`. -/
def SystemState.engageBrake (s : SystemState) : SystemState :=
  { s with brakeRelay := true, pwm := 0 }

/-- `engageDumpLoad()` of `main.cpp`: `ledcWrite(0, 255)`, relay LOW. -/
def SystemState.engageDumpLoad (s : SystemState) : SystemState :=
  { s with pwm := 255, brakeRelay := false }

/-- The `switch (currentState)` of `loop()` in `main.cpp`, dispatched on
the regime read back after the safety check.  Follows the case bodies
verbatim, including the two consecutive `if`s of the MPPT case (a tick
satisfying both leaves the regime in `STATE_STALL`).  `STATE_IDLE` and
`STATE_STARTUP` have no case and fall through unchanged. -/
noncomputable def handleRegime (r : TurbineState) (s : SystemState)
    (safe : Bool) (windSpeed rpm power : ℚ) : SystemState :=
  match r with
  | .STATE_STANDBY =>
      if windSpeed > 3 ∧ safe = true then { s with regime := .STATE_MPPT } else s
  | .STATE_MPPT =>
      let u := s.mppt.update power windSpeed
      let s2 : SystemState := { s with mppt := u.2, pwm := u.1 * 255 }
      let s3 : SystemState :=
        if power > RATED_POWER * 0.95
        then { s2 with regime := .STATE_POWER_REGULATION } else s2
      if windSpeed > 12 then { s3 with regime := .STATE_STALL } else s3
  | .STATE_POWER_REGULATION =>
      let u := calculateSoftStall power rpm s.integrator
      let s2 : SystemState := { s with integrator := u.2, pwm := (u.1 : ℝ) * 255 }
      if power < RATED_POWER * 0.8 then { s2 with regime := .STATE_MPPT } else s2
  | .STATE_STALL =>
      let s2 := s.engageDumpLoad
      if rpm < RATED_RPM then { s2 with regime := .STATE_STANDBY } else s2
  | .STATE_FAULT =>
      { s.engageBrake with pwm := 0 }
  | _ => s

/-- One 1 Hz sampling pass of `loop()` in `main.cpp`, with the sensor
reads (`windSpeed`, `rpm`, `voltage`, `current`) and `millis()` as
inputs: compute `power = voltage * current`, run `safety.check`, on
failure `setState(STATE_FAULT)` and `engageBrake()`, then dispatch the
regime handler on the state read back by `getState()`. -/
noncomputable def loopTick (s : SystemState) (nowMs : ℕ)
    (windSpeed rpm voltage current : ℚ) : SystemState :=
  let power := voltage * current
  let chk := s.safety.check nowMs rpm voltage current
  let safe := chk.1
  let s1 : SystemState := { s with safety := chk.2 }
  let s2 : SystemState :=
    if safe then s1 else { s1.engageBrake with regime := .STATE_FAULT }
  handleRegime s2.regime s2 safe windSpeed rpm power

/-- A controller whose wind buffer alternates 6.0 and 10.0 m/s with a
full sample count (the spec's Scenario C: W = 8, δ = 2). -/
noncomputable def alternatingMPPT : MPPTController :=
  { MPPTController.construct 2 with
    windSpeedBuffer := fun i => if i.val % 2 = 0 then 6 else 10
    sampleCount := 100 }

/-- The system as `main.cpp` leaves it after `setup()`: regime Standby,
the monitor `SafetyMonitor(250, 60)`, the controller `MPPTController(2)`
(`LAMBDA_OPT = 2.0`), integrator 0, no actuation. -/
noncomputable def initialSystem : SystemState :=
  { regime := .STATE_STANDBY
    safety := SafetyMonitor.construct OVERSPEED_RPM OVERVOLTAGE_V
    mppt := MPPTController.construct 2
    integrator := 0
    pwm := 0
    brakeRelay := false }

/-- A Standby system whose MPPT controller still holds state from an
earlier MPPT episode (duty 0.5, seven samples collected). -/
noncomputable def standbySystem : SystemState :=
  { initialSystem with
    mppt := { MPPTController.construct 2 with dutyCycle := 0.5, sampleCount := 7 } }

/-- The initial system placed in the MPPT regime. -/
noncomputable def mpptSystem : SystemState :=
  { initialSystem with regime := .STATE_MPPT }

/-- The initial system placed in PowerRegulation with a converged,
non-zero PI integrator. -/
noncomputable def regulationSystem : SystemState :=
  { initialSystem with regime := .STATE_POWER_REGULATION, integrator := 5 }

/-- Claim C1 (code evaluated at the failing input): the safety flags are
not latched.  On the monitor constructed in `main.cpp`
(`SafetyMonitor(250, 60)`), `check(300, 48, 8)` sets the overspeed flag,
and the very next `check(100, 48, 8)` — with no intervening `reset()` —
clears it again, because `check` assigns each flag from the current
comparison instead of OR-ing it into the stored flag. -/
theorem safety_flags_not_latched_bug :
    (((SafetyMonitor.construct OVERSPEED_RPM OVERVOLTAGE_V).check 1000 300 48 8).2.overspeedFlag
      = true) ∧
    ((((SafetyMonitor.construct OVERSPEED_RPM OVERVOLTAGE_V).check 1000 300 48 8).2.check
        2000 100 48 8).2.overspeedFlag = false) := by
  decide

/-- Claim C10: the `SafetyMonitor` constructor takes only the overspeed
and overvoltage thresholds and fixes the overcurrent threshold at
30.0 A; neither `check` nor `reset` ever changes a threshold; and on any
monitor whose overcurrent threshold is 30, `check(rpm, voltage,
current)` sets the overcurrent flag exactly when `current > 30`. -/
theorem overcurrent_threshold_fixed_30 :
    (∀ os ov : ℚ, (SafetyMonitor.construct os ov).overcurrentThreshold = 30) ∧
    (∀ (m : SafetyMonitor) (nowMs : ℕ) (rpm v c : ℚ),
      (m.check nowMs rpm v c).2.overcurrentThreshold = m.overcurrentThreshold ∧
      m.reset.overcurrentThreshold = m.overcurrentThreshold) ∧
    (∀ (m : SafetyMonitor) (nowMs : ℕ) (rpm v c : ℚ),
      m.overcurrentThreshold = 30 →
      (m.check nowMs rpm v c).2.overcurrentFlag = decide (c > 30)) := by
  refine ⟨fun os ov => rfl, fun m nowMs rpm v c => ⟨rfl, rfl⟩,
    fun m nowMs rpm v c h => ?_⟩
  simp [SafetyMonitor.check, h]

/-- Witness for C10: on the monitor of `main.cpp`, a 31 A sample sets the
overcurrent flag. -/
theorem overcurrent_threshold_fixed_30_witness :
    (SafetyMonitor.construct OVERSPEED_RPM OVERVOLTAGE_V).overcurrentThreshold = 30 ∧
    ((SafetyMonitor.construct OVERSPEED_RPM OVERVOLTAGE_V).check 5 0 0 31).2.overcurrentFlag
      = decide ((31 : ℚ) > 30) :=
  ⟨by decide,
   overcurrent_threshold_fixed_30.2.2 (SafetyMonitor.construct OVERSPEED_RPM OVERVOLTAGE_V)
     5 0 0 31 (by decide)⟩

/-- Counterexample for C9: the claim says the reading is 0 when the last
pulse is stale by more than 2 s, but `calculateRPM` reads only
`pulsePeriod` and has no staleness check.  With a period of 1 000 000 µs
and the last pulse 3 s old, the spec's reading is 0 while the code still
returns 60 RPM. -/
theorem rpm_staleness_cex :
    calculateRPM 1000000 = 60 ∧ specRotorRPM 1000000 3000000 = 0 ∧ (60 : ℚ) ≠ 0 := by
  refine ⟨?_, ?_, by norm_num⟩
  · rw [calculateRPM, if_neg (by norm_num)]
    norm_num
  · rw [specRotorRPM, if_pos (by norm_num)]

/-- Claim C9 amended: the rotor RPM reading equals `60·10⁶ / period_µs`
and returns 0 when the period is 0; there is no staleness handling, so
it agrees with the spec's `read_rotor_rpm` only when the last pulse is
at most 2 s old. -/
theorem rpm_formula_amended :
    (∀ p : ℕ, calculateRPM p = if p = 0 then 0 else 60000000 / (p : ℚ)) ∧
    (∀ p age : ℕ, age ≤ 2000000 → calculateRPM p = specRotorRPM p age) := by
  have hf : ∀ p : ℕ, calculateRPM p = if p = 0 then 0 else 60000000 / (p : ℚ) := by
    intro p
    by_cases hp : p = 0
    · simp [calculateRPM, hp]
    · rw [calculateRPM, if_neg hp, if_neg hp, div_mul_eq_mul_div]
      norm_num
  refine ⟨hf, fun p age hage => ?_⟩
  rw [hf p]
  by_cases hp : p = 0
  · simp [specRotorRPM, hp]
  · have hcond : ¬ (p = 0 ∨ age > 2000000) := by
      rintro (h | h)
      · exact hp h
      · omega
    rw [specRotorRPM, if_neg hcond, if_neg hp]

/-- Witness for C9 (amended): with a fresh pulse (1 ms old) and a 2 s
period, the code and the spec reading agree. -/
theorem rpm_formula_amended_witness :
    (1000 : ℕ) ≤ 2000000 ∧ calculateRPM 2000000 = specRotorRPM 2000000 1000 :=
  ⟨by decide, rpm_formula_amended.2 2000000 1000 (by decide)⟩

/-- The `constrain(x, 0.1, 0.9)` macro of Arduino, over `ℝ`: its result
always lies in [0.1, 0.9]. -/
lemma constrain_bounds_real (x : ℝ) :
    0.1 ≤ (if x < 0.1 then (0.1 : ℝ) else if x > 0.9 then 0.9 else x) ∧
    (if x < 0.1 then (0.1 : ℝ) else if x > 0.9 then 0.9 else x) ≤ 0.9 := by
  split_ifs with h1 h2
  · norm_num
  · norm_num
  · exact ⟨not_lt.mp h1, not_lt.mp h2⟩

/-- The `constrain(x, 0.1, 0.9)` macro of Arduino, over `ℚ`: its result
always lies in [0.1, 0.9]. -/
lemma constrain_bounds_rat (x : ℚ) :
    0.1 ≤ (if x < 0.1 then (0.1 : ℚ) else if x > 0.9 then 0.9 else x) ∧
    (if x < 0.1 then (0.1 : ℚ) else if x > 0.9 then 0.9 else x) ≤ 0.9 := by
  split_ifs with h1 h2
  · norm_num
  · norm_num
  · exact ⟨not_lt.mp h1, not_lt.mp h2⟩

/-- Claim C5: every `MPPTController::update` returns a duty cycle in
[0.1, 0.9] and stores that same value in `dutyCycle`, and every
`calculateSoftStall` call returns a duty in [0.1, 0.9], for all
inputs. -/
theorem duty_cycle_bounds (m : MPPTController) (power windSpeed rpm pr integ : ℚ) :
    (0.1 ≤ (m.update power windSpeed).1 ∧ (m.update power windSpeed).1 ≤ 0.9) ∧
    (m.update power windSpeed).2.dutyCycle = (m.update power windSpeed).1 ∧
    (0.1 ≤ (calculateSoftStall pr rpm integ).1 ∧ (calculateSoftStall pr rpm integ).1 ≤ 0.9) := by
  refine ⟨?_, rfl, ?_⟩
  · rw [MPPTController.update]
    exact constrain_bounds_real _
  · rw [calculateSoftStall]
    exact constrain_bounds_rat _

/-- The alternating buffer's mean is 8 m/s. -/
lemma alternatingMPPT_windMean : alternatingMPPT.windMean = 8 := by
  have h0 : (Finset.univ.filter (fun i : Fin 100 => i.val % 2 = 0)).card = 50 := by decide
  have h1 : (Finset.univ.filter (fun i : Fin 100 => ¬ i.val % 2 = 0)).card = 50 := by decide
  rw [MPPTController.windMean,
    show (∑ i : Fin 100, alternatingMPPT.windSpeedBuffer i)
        = ∑ i : Fin 100, if i.val % 2 = 0 then (6 : ℚ) else 10 from rfl,
    Finset.sum_ite, Finset.sum_const, Finset.sum_const, h0, h1]
  norm_num

/-- The alternating buffer's accumulated squared deviation is 400
(every sample is 2 m/s away from the mean). -/
lemma alternatingMPPT_windVarianceSum : alternatingMPPT.windVarianceSum = 400 := by
  have hall : ∀ i : Fin 100,
      (alternatingMPPT.windSpeedBuffer i - alternatingMPPT.windMean) *
        (alternatingMPPT.windSpeedBuffer i - alternatingMPPT.windMean) = 4 := by
    intro i
    rw [alternatingMPPT_windMean]
    by_cases h : i.val % 2 = 0 <;>
      simp [alternatingMPPT, MPPTController.construct, h] <;> norm_num
  rw [MPPTController.windVarianceSum, Finset.sum_congr rfl (fun i _ => hall i),
    Finset.sum_const]
  norm_num

/-- Claim C4: during warm-up (fewer than 100 samples) the MPPT step is
`BASE_STEP = 0.02`; once the buffer is full the step is
`max(0.02 / (1 + 0.5·σ), 0.005)` where `σ` is the population standard
deviation of the 100-sample buffer (variance divided by 100); and on the
buffer alternating 6.0 and 10.0 m/s, `σ = 2` and the step is 0.01. -/
theorem adaptive_step_formula :
    (∀ (m : MPPTController) (w : ℚ), m.sampleCount < 100 →
        m.calculateAdaptiveStep w = 0.02) ∧
    (∀ (m : MPPTController) (w : ℚ), ¬ m.sampleCount < 100 →
        m.calculateAdaptiveStep w =
          max (0.02 / (1 + 0.5 * Real.sqrt
            ((∑ i : Fin 100, ((m.windSpeedBuffer i : ℝ) -
                (∑ j : Fin 100, (m.windSpeedBuffer j : ℝ)) / 100) ^ 2) / 100)))
            0.005) ∧
    Real.sqrt ((alternatingMPPT.windVarianceSum : ℝ) / (WIND_BUFFER_SIZE : ℝ)) = 2 ∧
    alternatingMPPT.calculateAdaptiveStep 6 = 0.01 := by
  have hsigma : Real.sqrt ((alternatingMPPT.windVarianceSum : ℝ) / (WIND_BUFFER_SIZE : ℝ)) = 2 := by
    rw [alternatingMPPT_windVarianceSum,
      show (((400 : ℚ) : ℝ)) / (WIND_BUFFER_SIZE : ℝ) = 2 ^ 2 by
        norm_num [WIND_BUFFER_SIZE]]
    exact Real.sqrt_sq (by norm_num)
  refine ⟨?_, ?_, hsigma, ?_⟩
  · intro m w h
    rw [MPPTController.calculateAdaptiveStep, if_pos (by rwa [WIND_BUFFER_SIZE])]
    norm_num [BASE_STEP_SIZE]
  · intro m w h
    have h2 : ¬ m.sampleCount < WIND_BUFFER_SIZE := h
    have hcast : ((m.windVarianceSum : ℝ)) / (WIND_BUFFER_SIZE : ℝ)
        = (∑ i : Fin 100, ((m.windSpeedBuffer i : ℝ) -
            (∑ j : Fin 100, (m.windSpeedBuffer j : ℝ)) / 100) ^ 2) / 100 := by
      rw [MPPTController.windVarianceSum, MPPTController.windMean]
      rw [show ((WIND_BUFFER_SIZE : ℕ) : ℝ) = 100 by norm_num [WIND_BUFFER_SIZE]]
      push_cast
      congr 1
      refine Finset.sum_congr rfl fun i _ => by ring
    rw [MPPTController.calculateAdaptiveStep, if_neg h2]
    show max (((BASE_STEP_SIZE : ℚ) : ℝ) /
        (1 + ((K_TURB : ℚ) : ℝ) *
          Real.sqrt ((m.windVarianceSum : ℝ) / (WIND_BUFFER_SIZE : ℝ))))
      ((MIN_STEP_SIZE : ℚ) : ℝ) = _
    rw [hcast]
    norm_num [BASE_STEP_SIZE, K_TURB, MIN_STEP_SIZE]
  · have h2 : ¬ alternatingMPPT.sampleCount < WIND_BUFFER_SIZE := by
      simp [alternatingMPPT, WIND_BUFFER_SIZE]
    rw [MPPTController.calculateAdaptiveStep, if_neg h2]
    show max (((BASE_STEP_SIZE : ℚ) : ℝ) /
        (1 + ((K_TURB : ℚ) : ℝ) *
          Real.sqrt ((alternatingMPPT.windVarianceSum : ℝ) / (WIND_BUFFER_SIZE : ℝ))))
      ((MIN_STEP_SIZE : ℚ) : ℝ) = 0.01
    rw [hsigma,
      show ((BASE_STEP_SIZE : ℚ) : ℝ) / (1 + ((K_TURB : ℚ) : ℝ) * 2) = 0.01 by
        norm_num [BASE_STEP_SIZE, K_TURB],
      max_eq_left (by norm_num [MIN_STEP_SIZE])]

/-- Witness for C4: a freshly constructed controller is in warm-up and
its adaptive step is the base step 0.02. -/
theorem adaptive_step_formula_witness :
    (MPPTController.construct 2).sampleCount < 100 ∧
    (MPPTController.construct 2).calculateAdaptiveStep 5 = 0.02 :=
  ⟨by norm_num [MPPTController.construct],
   adaptive_step_formula.1 (MPPTController.construct 2) 5
     (by norm_num [MPPTController.construct])⟩

/-- If any monitored quantity strictly exceeds its threshold, `check`
returns `false`. -/
lemma check_fst_false_of_violation (m : SafetyMonitor) (nowMs : ℕ) (rpm v c : ℚ)
    (h : m.overspeedThreshold < rpm ∨ m.overvoltageThreshold < v ∨
      m.overcurrentThreshold < c) :
    (m.check nowMs rpm v c).1 = false := by
  simp only [SafetyMonitor.check, Bool.not_eq_false', Bool.or_eq_true,
    decide_eq_true_eq]
  tauto

/-- Claim C2: whenever the safety check fails (some input strictly
exceeds its threshold), the same tick ends with the regime forced to
Fault, the brake relay engaged, and zero converter duty, from any
starting regime. -/
theorem safety_failure_forces_fault (s : SystemState) (nowMs : ℕ)
    (windSpeed rpm voltage current : ℚ)
    (h : s.safety.overspeedThreshold < rpm ∨ s.safety.overvoltageThreshold < voltage ∨
      s.safety.overcurrentThreshold < current) :
    (loopTick s nowMs windSpeed rpm voltage current).regime = .STATE_FAULT ∧
    (loopTick s nowMs windSpeed rpm voltage current).brakeRelay = true ∧
    (loopTick s nowMs windSpeed rpm voltage current).pwm = 0 := by
  have hc := check_fst_false_of_violation s.safety nowMs rpm voltage current h
  simp [loopTick, handleRegime, SystemState.engageBrake, hc]

/-- Witness for C2: an overspeed sample (260 RPM > 250) from the
Standby start state ends the tick in Fault with the brake on and zero
duty. -/
theorem safety_failure_forces_fault_witness :
    initialSystem.safety.overspeedThreshold < 260 ∧
    ((loopTick initialSystem 1000 5 260 48 8).regime = .STATE_FAULT ∧
     (loopTick initialSystem 1000 5 260 48 8).brakeRelay = true ∧
     (loopTick initialSystem 1000 5 260 48 8).pwm = 0) :=
  ⟨by norm_num [initialSystem, SafetyMonitor.construct, OVERSPEED_RPM],
   safety_failure_forces_fault initialSystem 1000 5 260 48 8
     (Or.inl (by norm_num [initialSystem, SafetyMonitor.construct, OVERSPEED_RPM]))⟩

/-- Claim C3 (code evaluated at the failing input): `main.cpp` never
calls `mppt.reset()`.  A tick that transitions Standby → MPPT (wind
5 m/s > 3, safety ok) leaves the MPPT controller exactly as it was —
here with stale duty 0.5 — while `MPPTController::reset` would have set
duty 0.3. -/
theorem mppt_entry_without_reset_bug :
    (loopTick standbySystem 1000 5 60 48 2).regime = .STATE_MPPT ∧
    standbySystem.regime = .STATE_STANDBY ∧
    (loopTick standbySystem 1000 5 60 48 2).mppt.dutyCycle = 0.5 ∧
    (MPPTController.reset standbySystem.mppt).dutyCycle = 0.3 ∧
    (0.5 : ℝ) ≠ 0.3 := by
  norm_num [loopTick, handleRegime, SafetyMonitor.check, SafetyMonitor.construct,
    standbySystem, initialSystem, MPPTController.construct, MPPTController.reset,
    OVERSPEED_RPM, OVERVOLTAGE_V]

/-- Claim C8 (code evaluated at the failing input): the soft-stall
integrator is a `static` local that nothing ever resets.  A tick that
enters Fault from PowerRegulation (overspeed at 300 RPM) leaves the
integrator at its old value 5 instead of 0. -/
theorem integrator_not_reset_on_fault_bug :
    (loopTick regulationSystem 1000 5 300 48 8).regime = .STATE_FAULT ∧
    regulationSystem.regime = .STATE_POWER_REGULATION ∧
    (loopTick regulationSystem 1000 5 300 48 8).integrator = 5 ∧ (5 : ℚ) ≠ 0 := by
  norm_num [loopTick, handleRegime, SafetyMonitor.check, SafetyMonitor.construct,
    regulationSystem, initialSystem, OVERSPEED_RPM, OVERVOLTAGE_V,
    SystemState.engageBrake]

/-- Counterexample for C6: at power exactly `0.95 · rated` (47.5 V ×
10 A = 475 W) the MPPT regime does not hand over to PowerRegulation —
the code's `power > RATED_POWER * 0.95` is strict, the claim's `≥` is
not. -/
theorem hysteresis_enter_cex :
    (47.5 : ℚ) * 10 = RATED_POWER * 0.95 ∧
    (loopTick mpptSystem 1000 5 100 47.5 10).regime = .STATE_MPPT ∧
    (loopTick mpptSystem 1000 5 100 47.5 10).regime ≠ .STATE_POWER_REGULATION := by
  have h2 : (loopTick mpptSystem 1000 5 100 47.5 10).regime = .STATE_MPPT := by
    norm_num [loopTick, handleRegime, SafetyMonitor.check, SafetyMonitor.construct,
      mpptSystem, initialSystem, OVERSPEED_RPM, OVERVOLTAGE_V, RATED_POWER]
  refine ⟨by norm_num [RATED_POWER], h2, ?_⟩
  rw [h2]
  decide

/-- Claim C6 amended: with the safety check passing, MPPT hands over to
PowerRegulation exactly when power is strictly greater than
`0.95 · rated` (and the stall branch does not fire); PowerRegulation
returns to MPPT exactly when power is strictly below `0.80 · rated`, and
at exactly `0.80 · rated` it stays. -/
theorem hysteresis_band_amended (s : SystemState) (nowMs : ℕ)
    (windSpeed rpm voltage current : ℚ)
    (hsafe : (s.safety.check nowMs rpm voltage current).1 = true) :
    (s.regime = .STATE_MPPT → ¬ windSpeed > 12 →
      ((loopTick s nowMs windSpeed rpm voltage current).regime = .STATE_POWER_REGULATION
        ↔ voltage * current > RATED_POWER * 0.95)) ∧
    (s.regime = .STATE_POWER_REGULATION →
      ((loopTick s nowMs windSpeed rpm voltage current).regime = .STATE_MPPT
        ↔ voltage * current < RATED_POWER * 0.8)) ∧
    (s.regime = .STATE_POWER_REGULATION → voltage * current = RATED_POWER * 0.8 →
      (loopTick s nowMs windSpeed rpm voltage current).regime
        = .STATE_POWER_REGULATION) := by
  refine ⟨fun hr hw => ?_, fun hr => ?_, fun hr hp => ?_⟩
  · simp [loopTick, handleRegime, hsafe, hr, hw]
    split_ifs with h1 <;> simp [h1]
  · simp [loopTick, handleRegime, hsafe, hr]
    split_ifs with h1 <;> simp [h1]
  · simp [loopTick, handleRegime, hsafe, hr, hp]

/-- Witness for C6 (amended): from MPPT at 480 W (48 V × 10 A,
safety ok, wind 5 m/s ≤ 12) the tick hands over to PowerRegulation. -/
theorem hysteresis_band_amended_witness :
    (mpptSystem.safety.check 1000 100 48 10).1 = true ∧
    ((loopTick mpptSystem 1000 5 100 48 10).regime = .STATE_POWER_REGULATION
      ↔ (48 : ℚ) * 10 > RATED_POWER * 0.95) :=
  ⟨by decide,
   (hysteresis_band_amended mpptSystem 1000 5 100 48 10 (by decide)).1 rfl
     (by norm_num)⟩

/-- Counterexample for C7: in MPPT with wind 2 m/s (below the 3 m/s
cut-in) and the safety check passing, the tick leaves the regime in
MPPT — it does not transition to Standby as the claim states. -/
theorem mppt_low_wind_cex :
    (2 : ℚ) < 3 ∧
    (loopTick mpptSystem 1000 2 60 48 2).regime = .STATE_MPPT ∧
    (loopTick mpptSystem 1000 2 60 48 2).regime ≠ .STATE_STANDBY := by
  have h2 : (loopTick mpptSystem 1000 2 60 48 2).regime = .STATE_MPPT := by
    norm_num [loopTick, handleRegime, SafetyMonitor.check, SafetyMonitor.construct,
      mpptSystem, initialSystem, OVERSPEED_RPM, OVERVOLTAGE_V, RATED_POWER]
  refine ⟨by norm_num, h2, ?_⟩
  rw [h2]
  decide

/-- Claim C7 amended: the MPPT case of `loop()` has no cut-in exit: from
MPPT a tick can never end in Standby, and with the safety check passing,
wind below cut-in (hence also below the 12 m/s stall bound) and power
not above `0.95 · rated`, the regime simply stays MPPT. -/
theorem mppt_no_standby_exit_amended (s : SystemState) (nowMs : ℕ)
    (windSpeed rpm voltage current : ℚ) (hr : s.regime = .STATE_MPPT) :
    (loopTick s nowMs windSpeed rpm voltage current).regime ≠ .STATE_STANDBY ∧
    ((s.safety.check nowMs rpm voltage current).1 = true →
      windSpeed < 3 → ¬ voltage * current > RATED_POWER * 0.95 →
      (loopTick s nowMs windSpeed rpm voltage current).regime = .STATE_MPPT) := by
  constructor
  · by_cases hc : (s.safety.check nowMs rpm voltage current).1 = true
    · simp [loopTick, handleRegime, hc, hr]
      split_ifs <;> decide
    · rw [Bool.not_eq_true] at hc
      simp [loopTick, handleRegime, SystemState.engageBrake, hc]
  · intro hsafe hw hp
    have hw12 : ¬ windSpeed > 12 := by linarith
    simp [loopTick, handleRegime, hsafe, hr, hw12, hp]

/-- Witness for C7 (amended): the concrete low-wind MPPT tick of the
counterexample indeed stays in MPPT. -/
theorem mppt_no_standby_exit_amended_witness :
    mpptSystem.regime = .STATE_MPPT ∧
    (loopTick mpptSystem 1000 2 60 48 2).regime = .STATE_MPPT :=
  ⟨rfl,
   (mppt_no_standby_exit_amended mpptSystem 1000 2 60 48 2 rfl).2 (by decide)
     (by norm_num) (by norm_num [RATED_POWER])⟩
